import Mathlib

/-!
Shallow embedding of the zentrik-api booking-management core
(models, repositories, services) for verifying its specification.

Conventions of the embedding:
- timestamps are natural numbers (ticks of the UTC clock);
- the relational store is a list of records; generated ids are passed
  in explicitly (newId) as is the current instant (now);
- a partial-update payload field is `Option v`: `none` means the field
  was absent from the payload (pydantic exclude_unset), `some v` means
  it was supplied with value v; for nullable columns v is itself an
  Option;
- service-layer domain errors (Python ValueError with a message) are
  `Except String`;
- SQLAlchemy emits an UPDATE (and hence fires the updated_at onupdate
  hook) only when some column value actually changed, which the
  embedding reflects by comparing the record before and after the
  payload is applied.
-/

namespace ZentrikApi

/-- The four booking states of app/models/booking.py (BookingStatus). -/
inductive BookingStatus where
  | pending
  | confirmed
  | completed
  | cancelled
deriving DecidableEq

/-- Provider row (app/models/provider.py). -/
structure Provider where
  id : Nat
  name : String
  sector : String
  phone : Option String
  email : Option String
  address : Option String
  is_active : Bool
  created_at : Nat
  updated_at : Nat
deriving DecidableEq

/-- Booking row (app/models/booking.py). -/
structure Booking where
  id : Nat
  provider_id : Nat
  client_name : String
  client_phone : String
  client_email : Option String
  service_type : Option String
  scheduled_at : Nat
  status : BookingStatus
  notes : Option String
  created_at : Nat
  updated_at : Nat
deriving DecidableEq

/-- ProviderCreate schema (app/schemas/provider.py): required name and
sector, optional phone, email, address; no is_active field. -/
structure ProviderCreate where
  name : String
  sector : String
  phone : Option String := none
  email : Option String := none
  address : Option String := none

/-- ProviderUpdate schema (app/schemas/provider.py): all fields optional,
outer Option = present in the payload. -/
structure ProviderUpdate where
  name : Option String := none
  sector : Option String := none
  phone : Option (Option String) := none
  email : Option (Option String) := none
  address : Option (Option String) := none
  is_active : Option Bool := none
deriving DecidableEq

/-- The pydantic Field constraints of ProviderUpdate (min_length=1 and
max_length=255 on name, min_length=1 and max_length=100 on sector,
max_length=50 on phone); email and address carry no length constraint
modelled here. -/
def ProviderUpdate.valid (d : ProviderUpdate) : Bool :=
  (match d.name with
   | some s => 1 ≤ s.length && s.length ≤ 255
   | none => true) &&
  (match d.sector with
   | some s => 1 ≤ s.length && s.length ≤ 100
   | none => true) &&
  (match d.phone with
   | some (some s) => s.length ≤ 50
   | _ => true)

/-- BookingCreate schema (app/schemas/booking.py): it has NO status
field — status cannot be supplied by the caller at creation. -/
structure BookingCreate where
  provider_id : Nat
  client_name : String
  client_phone : String
  client_email : Option String := none
  service_type : Option String := none
  scheduled_at : Nat
  notes : Option String := none

/-- BookingUpdate schema (app/schemas/booking.py): all fields optional,
outer Option = present in the payload (exclude_unset). -/
structure BookingUpdate where
  client_name : Option String := none
  client_phone : Option String := none
  client_email : Option (Option String) := none
  service_type : Option (Option String) := none
  scheduled_at : Option Nat := none
  status : Option BookingStatus := none
  notes : Option (Option String) := none
deriving DecidableEq

/-- Characters Python str.strip() removes (ASCII whitespace). -/
def isPyWhitespaceChar (c : Char) : Bool :=
  c == ' ' || c == '\t' || c == '\n' || c == '\r' || c == '\x0b' || c == '\x0c'

/-- `not s.strip()` in Python: the string strips to empty, i.e. every
character is whitespace (true for the empty string). -/
def strippedEmpty (s : String) : Bool :=
  s.data.all isPyWhitespaceChar

/-- Replace the first element satisfying p (the row the ORM loaded and
mutated) by its image under f. -/
def updateFirst (p : α → Bool) (f : α → α) : List α → List α
  | [] => []
  | x :: xs => if p x then f x :: xs else x :: updateFirst p f xs

namespace ProviderRepository

/-- query(Provider).filter(Provider.id == provider_id).first() -/
def get_by_id (db : List Provider) (provider_id : Nat) : Option Provider :=
  db.find? (fun p => p.id == provider_id)

/-- ProviderRepository.create: builds the row from the schema, with the
column defaults is_active=True and created_at/updated_at = utcnow, and
the generated id; commits (appends) it. -/
def create (db : List Provider) (newId now : Nat) (data : ProviderCreate) :
    List Provider × Provider :=
  let p : Provider :=
    { id := newId
      name := data.name
      sector := data.sector
      phone := data.phone
      email := data.email
      address := data.address
      is_active := true
      created_at := now
      updated_at := now }
  (db ++ [p], p)

/-- setattr for each field present in the payload (exclude_unset). -/
def applyUpdate (p : Provider) (d : ProviderUpdate) : Provider :=
  { p with
    name := d.name.getD p.name
    sector := d.sector.getD p.sector
    phone := d.phone.getD p.phone
    email := d.email.getD p.email
    address := d.address.getD p.address
    is_active := d.is_active.getD p.is_active }

/-- The row after the commit: the payload applied, updated_at refreshed
by the onupdate hook exactly when some column changed. -/
def updatedRecord (p : Provider) (d : ProviderUpdate) (now : Nat) : Provider :=
  let p1 := applyUpdate p d
  if p1 = p then p else { p1 with updated_at := now }

/-- ProviderRepository.update: load by id (None if missing), setattr the
supplied fields, commit; the updated_at onupdate hook fires exactly when
some column changed. -/
def update (db : List Provider) (provider_id : Nat) (d : ProviderUpdate)
    (now : Nat) : Option (List Provider × Provider) :=
  match get_by_id db provider_id with
  | none => none
  | some p =>
    some (updateFirst (fun x => x.id == provider_id)
      (fun _ => updatedRecord p d now) db, updatedRecord p d now)

/-- ProviderRepository.delete: load by id; absent gives False with the
store untouched, present deletes the loaded row and gives True. -/
def delete (db : List Provider) (provider_id : Nat) : List Provider × Bool :=
  match get_by_id db provider_id with
  | none => (db, false)
  | some _ => (db.eraseP (fun x => x.id == provider_id), true)

end ProviderRepository

namespace BookingRepository

/-- query(Booking).filter(Booking.id == booking_id).first() -/
def get_by_id (db : List Booking) (booking_id : Nat) : Option Booking :=
  db.find? (fun b => b.id == booking_id)

/-- BookingRepository.create: builds the row from the schema (which has
no status field), so status takes its column default PENDING and
created_at/updated_at the default utcnow; commits (appends) it. -/
def create (db : List Booking) (newId now : Nat) (data : BookingCreate) :
    List Booking × Booking :=
  let b : Booking :=
    { id := newId
      provider_id := data.provider_id
      client_name := data.client_name
      client_phone := data.client_phone
      client_email := data.client_email
      service_type := data.service_type
      scheduled_at := data.scheduled_at
      status := BookingStatus.pending
      notes := data.notes
      created_at := now
      updated_at := now }
  (db ++ [b], b)

/-- The filter-building part of BookingRepository.list_all: the source
guards each filter with Python truthiness (`if provider_id:` etc.), so
a provider_id of 0 is falsy and disables that filter; a BookingStatus
member and a datetime are always truthy, so those filters apply
whenever supplied. -/
def filteredQuery (db : List Booking)
    (provider_id : Option Nat) (status : Option BookingStatus)
    (from_date to_date : Option Nat) : List Booking :=
  let q := db
  let q := match provider_id with
    | some pid => if pid != 0 then q.filter (fun (b : Booking) => b.provider_id == pid) else q
    | none => q
  let q := match status with
    | some s => q.filter (fun (b : Booking) => b.status == s)
    | none => q
  let q := match from_date with
    | some d => q.filter (fun (b : Booking) => decide (d ≤ b.scheduled_at))
    | none => q
  let q := match to_date with
    | some d => q.filter (fun (b : Booking) => decide (b.scheduled_at ≤ d))
    | none => q
  q

/-- Ordering and pagination applied to the filtered query:
order_by(scheduled_at).offset(skip).limit(limit). -/
def list_all (db : List Booking) (skip limit : Nat)
    (provider_id : Option Nat) (status : Option BookingStatus)
    (from_date to_date : Option Nat) : List Booking :=
  ((((filteredQuery db provider_id status from_date to_date).mergeSort
    (fun (a b : Booking) => a.scheduled_at ≤ b.scheduled_at)).drop skip).take limit)

/-- setattr for each field present in the payload (exclude_unset). -/
def applyUpdate (b : Booking) (d : BookingUpdate) : Booking :=
  { b with
    client_name := d.client_name.getD b.client_name
    client_phone := d.client_phone.getD b.client_phone
    client_email := d.client_email.getD b.client_email
    service_type := d.service_type.getD b.service_type
    scheduled_at := d.scheduled_at.getD b.scheduled_at
    status := d.status.getD b.status
    notes := d.notes.getD b.notes }

/-- The row after the commit: the payload applied, updated_at refreshed
by the onupdate hook exactly when some column changed. -/
def updatedRecord (b : Booking) (d : BookingUpdate) (now : Nat) : Booking :=
  let b1 := applyUpdate b d
  if b1 = b then b else { b1 with updated_at := now }

/-- BookingRepository.update: load by id (None if missing), setattr the
supplied fields, commit; the updated_at onupdate hook fires exactly when
some column changed. -/
def update (db : List Booking) (booking_id : Nat) (d : BookingUpdate)
    (now : Nat) : Option (List Booking × Booking) :=
  match get_by_id db booking_id with
  | none => none
  | some b =>
    some (updateFirst (fun x => x.id == booking_id)
      (fun _ => updatedRecord b d now) db, updatedRecord b d now)

/-- BookingRepository.delete: load by id; absent gives False with the
store untouched, present deletes the loaded row and gives True. -/
def delete (db : List Booking) (booking_id : Nat) : List Booking × Bool :=
  match get_by_id db booking_id with
  | none => (db, false)
  | some _ => (db.eraseP (fun x => x.id == booking_id), true)

end BookingRepository

namespace ProviderService

/-- ProviderService.register_provider: rejects a name or sector that
strips to empty, else delegates to the repository create.  The pair is
(store after the call, outcome). -/
def register_provider (db : List Provider) (newId now : Nat)
    (data : ProviderCreate) : List Provider × Except String Provider :=
  if strippedEmpty data.name then
    (db, .error "Provider name cannot be empty")
  else if strippedEmpty data.sector then
    (db, .error "Provider sector cannot be empty")
  else
    let (db1, p) := ProviderRepository.create db newId now data
    (db1, .ok p)

/-- ProviderService.update_provider: repository update, None mapped to
the not-found ValueError. -/
def update_provider (db : List Provider) (provider_id : Nat)
    (d : ProviderUpdate) (now : Nat) : List Provider × Except String Provider :=
  match ProviderRepository.update db provider_id d now with
  | none =>
    (db, .error ("Provider with ID " ++ toString provider_id ++ " not found"))
  | some (db1, p) => (db1, .ok p)

/-- ProviderService.delete_provider: repository delete, False mapped to
the not-found ValueError, True passed through. -/
def delete_provider (db : List Provider) (provider_id : Nat) :
    List Provider × Except String Bool :=
  match ProviderRepository.delete db provider_id with
  | (db1, true) => (db1, .ok true)
  | (_, false) =>
    (db, .error ("Provider with ID " ++ toString provider_id ++ " not found"))

end ProviderService

namespace BookingService

/-- BookingService.create_booking: rule 1 the provider must exist, rule
2 it must be active, rule 3 `if data.scheduled_at < datetime.utcnow()`
raises; only then booking_repo.create runs.  The pair is (booking store
after the call, outcome); the provider store is read-only here. -/
def create_booking (providers : List Provider) (bookings : List Booking)
    (newId now : Nat) (data : BookingCreate) :
    List Booking × Except String Booking :=
  match ProviderRepository.get_by_id providers data.provider_id with
  | none =>
    (bookings, .error ("Provider with ID " ++ toString data.provider_id ++ " not found"))
  | some provider =>
    if !provider.is_active then
      (bookings, .error "Provider is not active and cannot accept bookings")
    else if data.scheduled_at < now then
      (bookings, .error "Scheduled time must be in the future")
    else
      let (db1, b) := BookingRepository.create bookings newId now data
      (db1, .ok b)

/-- BookingService.update_booking: repository update, None mapped to
the not-found ValueError. -/
def update_booking (db : List Booking) (booking_id : Nat)
    (d : BookingUpdate) (now : Nat) : List Booking × Except String Booking :=
  match BookingRepository.update db booking_id d now with
  | none =>
    (db, .error ("Booking with ID " ++ toString booking_id ++ " not found"))
  | some (db1, b) => (db1, .ok b)

/-- BookingService.cancel_booking: builds
BookingUpdate(status=CANCELLED) — a payload in which only status is set
— and calls update_booking. -/
def cancel_booking (db : List Booking) (booking_id now : Nat) :
    List Booking × Except String Booking :=
  update_booking db booking_id { status := some BookingStatus.cancelled } now

/-- BookingService.delete_booking: repository delete, False mapped to
the not-found ValueError, True passed through. -/
def delete_booking (db : List Booking) (booking_id : Nat) :
    List Booking × Except String Bool :=
  match BookingRepository.delete db booking_id with
  | (db1, true) => (db1, .ok true)
  | (_, false) =>
    (db, .error ("Booking with ID " ++ toString booking_id ++ " not found"))

end BookingService

/-- The specification predicate for the booking list filters: exact
match on provider_id and status when supplied, scheduled_at within
[from_date, to_date] inclusive when supplied, conjunction of all
supplied filters.  Written from the spec wording, to be compared with
BookingRepository.list_all. -/
def bookingMatches (provider_id : Option Nat) (status : Option BookingStatus)
    (from_date to_date : Option Nat) (b : Booking) : Bool :=
  (match provider_id with
   | some pid => b.provider_id == pid
   | none => true) &&
  (match status with
   | some s => b.status == s
   | none => true) &&
  (match from_date with
   | some d => decide (d ≤ b.scheduled_at)
   | none => true) &&
  (match to_date with
   | some d => decide (b.scheduled_at ≤ d)
   | none => true)

/-! ### Sample records used by witnesses and counterexamples -/

/-- A sample active provider. -/
def provA : Provider :=
  { id := 1, name := "City Clinic", sector := "medical", phone := none,
    email := none, address := none, is_active := true,
    created_at := 0, updated_at := 0 }

/-- A sample stored booking for provider 1. -/
def bookA : Booking :=
  { id := 1, provider_id := 1, client_name := "John Doe",
    client_phone := "+1234567890", client_email := none,
    service_type := none, scheduled_at := 100,
    status := BookingStatus.pending, notes := none,
    created_at := 3, updated_at := 3 }

/-- A sample booking-creation payload against provider 1. -/
def bcA : BookingCreate :=
  { provider_id := 1, client_name := "John Doe",
    client_phone := "+1234567890", scheduled_at := 10 }

/-- The booking the repository builds from bcA with id 2 at instant 5. -/
def bNewA : Booking := (BookingRepository.create [] 2 5 bcA).2

/-! ### Helper lemmas about updateFirst, find? and eraseP -/

theorem find?_updateFirst_self (p : α → Bool) (c : α) (hc : p c = true) :
    ∀ l : List α, (l.find? p).isSome →
      (updateFirst p (fun _ => c) l).find? p = some c
  | [], h => by simp [List.find?] at h
  | x :: xs, h => by
    by_cases hx : p x = true
    · simp only [updateFirst, hx, if_true]
      exact List.find?_cons_of_pos _ hc
    · have hx' : p x = false := by simpa using hx
      simp only [updateFirst, hx', Bool.false_eq_true, if_false]
      rw [List.find?_cons_of_neg _ hx]
      apply find?_updateFirst_self p c hc xs
      rw [List.find?_cons_of_neg _ hx] at h
      exact h

theorem updateFirst_of_find?_self (p : α → Bool) :
    ∀ (l : List α) (b : α), l.find? p = some b →
      updateFirst p (fun _ => b) l = l
  | [], b, h => by simp [List.find?] at h
  | x :: xs, b, h => by
    by_cases hx : p x = true
    · rw [List.find?_cons_of_pos _ hx] at h
      cases h
      simp [updateFirst, hx]
    · have hx' : p x = false := by simpa using hx
      rw [List.find?_cons_of_neg _ hx] at h
      simp only [updateFirst, hx', Bool.false_eq_true, if_false]
      rw [updateFirst_of_find?_self p xs b h]

theorem find?_eraseP_eq_none (key : α → Nat) (k : Nat) :
    ∀ l : List α, l.Pairwise (fun a b => key a ≠ key b) →
      ((l.eraseP (fun x => key x == k)).find? (fun x => key x == k)) = none
  | [], _ => rfl
  | x :: xs, h => by
    rcases List.pairwise_cons.mp h with ⟨hx, hxs⟩
    by_cases hk : (key x == k) = true
    · rw [List.eraseP_cons, hk, cond_true]
      rw [List.find?_eq_none]
      intro y hy
      have hne : key x ≠ key y := hx y hy
      have hxk : key x = k := by simpa using hk
      simp only [beq_iff_eq]
      omega
    · have hk' : (key x == k) = false := by simpa using hk
      rw [List.eraseP_cons, hk', cond_false]
      rw [List.find?_cons, hk']
      exact find?_eraseP_eq_none key k xs hxs

/-! ### C2 -/

/-- C2: every successful booking creation persists status pending.  The
BookingCreate schema (mirrored by the structure of that name) has no
status field, so a caller cannot supply any status-like value: the first
conjunct settles the repository create for every possible creation
input, the second the service path. -/
theorem C2_created_booking_status_is_pending :
    (∀ (db : List Booking) (newId now : Nat) (data : BookingCreate),
        ((BookingRepository.create db newId now data).2).status = BookingStatus.pending) ∧
    (∀ (providers : List Provider) (bookings db1 : List Booking)
        (newId now : Nat) (data : BookingCreate) (b : Booking),
        BookingService.create_booking providers bookings newId now data = (db1, Except.ok b) →
        b.status = BookingStatus.pending) := by
  constructor
  · intro db newId now data
    rfl
  · intro providers bookings db1 newId now data b h
    unfold BookingService.create_booking at h
    cases hp : ProviderRepository.get_by_id providers data.provider_id with
    | none => rw [hp] at h; simp at h
    | some provider =>
      rw [hp] at h
      by_cases ha : provider.is_active
      · simp only [ha, Bool.not_true, Bool.false_eq_true, if_false] at h
        by_cases hs : data.scheduled_at < now
        · simp [hs] at h
        · simp only [hs, if_false] at h
          have h2 : Except.ok (BookingRepository.create bookings newId now data).2 =
              Except.ok b := congrArg Prod.snd h
          cases h2
          rfl
      · have ha' : provider.is_active = false := by simpa using ha
        simp [ha'] at h

/-- C2 witness: the concrete creation of bNewA comes out pending. -/
theorem C2_witness : bNewA.status = BookingStatus.pending :=
  C2_created_booking_status_is_pending.2 [provA] [] [bNewA] 2 5 bcA bNewA rfl

/-! ### C9 -/

/-- C9: register_provider rejects a blank (empty or whitespace-only)
name with the name rule violation and an unchanged store, rejects a
blank sector likewise, and otherwise delegates to the repository
create. -/
theorem C9_register_provider_blank_rejected :
    ∀ (db : List Provider) (newId now : Nat) (data : ProviderCreate),
      (strippedEmpty data.name = true →
        ProviderService.register_provider db newId now data =
          (db, Except.error "Provider name cannot be empty")) ∧
      (strippedEmpty data.name = false → strippedEmpty data.sector = true →
        ProviderService.register_provider db newId now data =
          (db, Except.error "Provider sector cannot be empty")) ∧
      (strippedEmpty data.name = false → strippedEmpty data.sector = false →
        ProviderService.register_provider db newId now data =
          ((ProviderRepository.create db newId now data).1,
            Except.ok (ProviderRepository.create db newId now data).2)) := by
  intro db newId now data
  refine ⟨fun h1 => ?_, fun h1 h2 => ?_, fun h1 h2 => ?_⟩
  · simp [ProviderService.register_provider, h1]
  · simp [ProviderService.register_provider, h1, h2]
  · simp [ProviderService.register_provider, ProviderRepository.create, h1, h2]

/-- C9 witness: the three branches at concrete inputs. -/
theorem C9_witness :
    (ProviderService.register_provider [] 1 0 { name := "  \t ", sector := "medical" } =
      ([], Except.error "Provider name cannot be empty")) ∧
    (ProviderService.register_provider [] 1 0 { name := "City Clinic", sector := " " } =
      ([], Except.error "Provider sector cannot be empty")) ∧
    (ProviderService.register_provider [] 1 0 { name := "City Clinic", sector := "medical" } =
      ((ProviderRepository.create [] 1 0 { name := "City Clinic", sector := "medical" }).1,
        Except.ok (ProviderRepository.create [] 1 0 { name := "City Clinic", sector := "medical" }).2)) :=
  ⟨(C9_register_provider_blank_rejected [] 1 0 _).1 (by decide),
   (C9_register_provider_blank_rejected [] 1 0 _).2.1 (by decide) (by decide),
   (C9_register_provider_blank_rejected [] 1 0 _).2.2 (by decide) (by decide)⟩

/-! ### C8 -/

/-- C8: deleting a missing id raises the not-found error at the service
layer for both entities with the store unchanged, and the repository
delete answers true exactly when a record with that id existed; on
false the store is untouched, and (under distinct ids, as the primary
key guarantees) a successful delete really removes the record. -/
theorem C8_delete_missing_id_not_found :
    (∀ (db : List Booking) (booking_id : Nat),
        BookingRepository.get_by_id db booking_id = none →
        BookingService.delete_booking db booking_id =
          (db, Except.error ("Booking with ID " ++ toString booking_id ++ " not found"))) ∧
    (∀ (db : List Provider) (provider_id : Nat),
        ProviderRepository.get_by_id db provider_id = none →
        ProviderService.delete_provider db provider_id =
          (db, Except.error ("Provider with ID " ++ toString provider_id ++ " not found"))) ∧
    (∀ (db : List Booking) (booking_id : Nat),
        ((BookingRepository.delete db booking_id).2 = true ↔
          (BookingRepository.get_by_id db booking_id).isSome = true)) ∧
    (∀ (db : List Provider) (provider_id : Nat),
        ((ProviderRepository.delete db provider_id).2 = true ↔
          (ProviderRepository.get_by_id db provider_id).isSome = true)) ∧
    (∀ (db : List Booking) (booking_id : Nat),
        (BookingRepository.delete db booking_id).2 = false →
        (BookingRepository.delete db booking_id).1 = db) ∧
    (∀ (db : List Provider) (provider_id : Nat),
        (ProviderRepository.delete db provider_id).2 = false →
        (ProviderRepository.delete db provider_id).1 = db) ∧
    (∀ (db : List Booking) (booking_id : Nat),
        db.Pairwise (fun a b => a.id ≠ b.id) →
        (BookingRepository.delete db booking_id).2 = true →
        BookingRepository.get_by_id (BookingRepository.delete db booking_id).1 booking_id = none) ∧
    (∀ (db : List Provider) (provider_id : Nat),
        db.Pairwise (fun a b => a.id ≠ b.id) →
        (ProviderRepository.delete db provider_id).2 = true →
        ProviderRepository.get_by_id (ProviderRepository.delete db provider_id).1 provider_id = none) := by
  refine ⟨fun db i h => ?_, fun db i h => ?_, fun db i => ?_, fun db i => ?_,
      fun db i h => ?_, fun db i h => ?_, fun db i hnd h => ?_, fun db i hnd h => ?_⟩
  · simp [BookingService.delete_booking, BookingRepository.delete, h]
  · simp [ProviderService.delete_provider, ProviderRepository.delete, h]
  · cases hg : BookingRepository.get_by_id db i <;>
      simp [BookingRepository.delete, hg]
  · cases hg : ProviderRepository.get_by_id db i <;>
      simp [ProviderRepository.delete, hg]
  · cases hg : BookingRepository.get_by_id db i <;>
      simp_all [BookingRepository.delete, hg]
  · cases hg : ProviderRepository.get_by_id db i <;>
      simp_all [ProviderRepository.delete, hg]
  · cases hg : BookingRepository.get_by_id db i with
    | none => simp [BookingRepository.delete, hg] at h
    | some b =>
      simp only [BookingRepository.delete, hg]
      exact find?_eraseP_eq_none Booking.id i db hnd
  · cases hg : ProviderRepository.get_by_id db i with
    | none => simp [ProviderRepository.delete, hg] at h
    | some p =>
      simp only [ProviderRepository.delete, hg]
      exact find?_eraseP_eq_none Provider.id i db hnd

/-- C8 witness: concrete instances of every conjunct. -/
theorem C8_witness :
    (BookingService.delete_booking [] 5 =
      ([], Except.error ("Booking with ID " ++ toString 5 ++ " not found"))) ∧
    (ProviderService.delete_provider [] 7 =
      ([], Except.error ("Provider with ID " ++ toString 7 ++ " not found"))) ∧
    ((BookingRepository.delete [bookA] 1).2 = true) ∧
    ((ProviderRepository.delete [provA] 1).2 = true) ∧
    ((BookingRepository.delete [bookA] 9).1 = [bookA]) ∧
    ((ProviderRepository.delete [provA] 9).1 = [provA]) ∧
    (BookingRepository.get_by_id (BookingRepository.delete [bookA] 1).1 1 = none) ∧
    (ProviderRepository.get_by_id (ProviderRepository.delete [provA] 1).1 1 = none) :=
  ⟨C8_delete_missing_id_not_found.1 [] 5 rfl,
   C8_delete_missing_id_not_found.2.1 [] 7 rfl,
   (C8_delete_missing_id_not_found.2.2.1 [bookA] 1).2 (by decide),
   (C8_delete_missing_id_not_found.2.2.2.1 [provA] 1).2 (by decide),
   C8_delete_missing_id_not_found.2.2.2.2.1 [bookA] 9 (by decide),
   C8_delete_missing_id_not_found.2.2.2.2.2.1 [provA] 9 (by decide),
   C8_delete_missing_id_not_found.2.2.2.2.2.2.1 [bookA] 1 (by decide) (by decide),
   C8_delete_missing_id_not_found.2.2.2.2.2.2.2 [provA] 1 (by decide) (by decide)⟩

/-! ### C4 -/

/-- A concrete payload changing only the client phone. -/
def buPhone : BookingUpdate := { client_phone := some "+9999" }

/-- bookA after buPhone is applied at instant 7. -/
def bookA_phone : Booking := { bookA with client_phone := "+9999", updated_at := 7 }

/-- A concrete payload changing only the provider phone. -/
def puPhone : ProviderUpdate := { phone := some (some "+8888") }

/-- provA after puPhone is applied at instant 7. -/
def provA_phone : Provider := { provA with phone := some "+8888", updated_at := 7 }

/-- C4: partial update touches only the fields present in the payload:
for both entities, every payload field that is absent keeps exactly its
prior value, and the server-managed identity and creation columns (id,
provider_id, created_at) are never modified.  updated_at is the
server-managed audit column outside the payload schema; its behaviour is
the subject of C7. -/
theorem C4_partial_update_frame :
    (∀ (db : List Booking) (i : Nat) (d : BookingUpdate) (now : Nat)
        (b : Booking) (db1 : List Booking) (b1 : Booking),
        BookingRepository.get_by_id db i = some b →
        BookingRepository.update db i d now = some (db1, b1) →
        b1.id = b.id ∧ b1.provider_id = b.provider_id ∧ b1.created_at = b.created_at ∧
        (d.client_name = none → b1.client_name = b.client_name) ∧
        (d.client_phone = none → b1.client_phone = b.client_phone) ∧
        (d.client_email = none → b1.client_email = b.client_email) ∧
        (d.service_type = none → b1.service_type = b.service_type) ∧
        (d.scheduled_at = none → b1.scheduled_at = b.scheduled_at) ∧
        (d.status = none → b1.status = b.status) ∧
        (d.notes = none → b1.notes = b.notes)) ∧
    (∀ (db : List Provider) (i : Nat) (d : ProviderUpdate) (now : Nat)
        (p : Provider) (db1 : List Provider) (p1 : Provider),
        ProviderRepository.get_by_id db i = some p →
        ProviderRepository.update db i d now = some (db1, p1) →
        p1.id = p.id ∧ p1.created_at = p.created_at ∧
        (d.name = none → p1.name = p.name) ∧
        (d.sector = none → p1.sector = p.sector) ∧
        (d.phone = none → p1.phone = p.phone) ∧
        (d.email = none → p1.email = p.email) ∧
        (d.address = none → p1.address = p.address) ∧
        (d.is_active = none → p1.is_active = p.is_active)) := by
  constructor
  · intro db i d now b db1 b1 hget hupd
    simp only [BookingRepository.update, BookingRepository.updatedRecord, hget, Option.some.injEq, Prod.mk.injEq] at hupd
    obtain ⟨-, hb⟩ := hupd
    by_cases hch : BookingRepository.applyUpdate b d = b
    · rw [if_pos hch] at hb
      subst hb
      refine ⟨rfl, rfl, rfl, ?_, ?_, ?_, ?_, ?_, ?_, ?_⟩ <;> intro hf <;> rfl
    · rw [if_neg hch] at hb
      subst hb
      refine ⟨rfl, rfl, rfl, ?_, ?_, ?_, ?_, ?_, ?_, ?_⟩ <;> intro hf <;>
        simp [BookingRepository.applyUpdate, hf]
  · intro db i d now p db1 p1 hget hupd
    simp only [ProviderRepository.update, ProviderRepository.updatedRecord, hget, Option.some.injEq, Prod.mk.injEq] at hupd
    obtain ⟨-, hp⟩ := hupd
    by_cases hch : ProviderRepository.applyUpdate p d = p
    · rw [if_pos hch] at hp
      subst hp
      refine ⟨rfl, rfl, ?_, ?_, ?_, ?_, ?_, ?_⟩ <;> intro hf <;> rfl
    · rw [if_neg hch] at hp
      subst hp
      refine ⟨rfl, rfl, ?_, ?_, ?_, ?_, ?_, ?_⟩ <;> intro hf <;>
        simp [ProviderRepository.applyUpdate, hf]

/-- C4 witness: updating only the phone leaves every other field of a
concrete booking and of a concrete provider exactly as it was. -/
theorem C4_witness :
    (bookA_phone.client_name = bookA.client_name ∧
     bookA_phone.scheduled_at = bookA.scheduled_at ∧
     bookA_phone.status = bookA.status) ∧
    (provA_phone.name = provA.name ∧ provA_phone.sector = provA.sector ∧
     provA_phone.is_active = provA.is_active) := by
  have hB := C4_partial_update_frame.1 [bookA] 1 buPhone 7 bookA [bookA_phone] bookA_phone
    (by decide) (by decide)
  have hP := C4_partial_update_frame.2 [provA] 1 puPhone 7 provA [provA_phone] provA_phone
    (by decide) (by decide)
  exact ⟨⟨hB.2.2.2.1 rfl, hB.2.2.2.2.2.2.2.1 rfl, hB.2.2.2.2.2.2.2.2.1 rfl⟩,
    ⟨hP.2.2.1 rfl, hP.2.2.2.1 rfl, hP.2.2.2.2.2.2.2 rfl⟩⟩

/-! ### C7 -/

/-- C7 counterexample: an update with an empty payload on the stored
booking bookA succeeds (it returns the record) but leaves the record —
updated_at included — exactly as it was: no column changed, so no
UPDATE is emitted and the onupdate hook never fires.  The record before
has updated_at 3 and the record after is the same bookA, so updated_at
did not strictly increase although the call happened at instant 7. -/
theorem C7_counterexample :
    BookingRepository.update [bookA] 1 {} 7 = some ([bookA], bookA) ∧
    ¬ bookA.updated_at < bookA.updated_at := by decide

/-- C7 amended: for both entities, a successful partial update refreshes
updated_at to the current instant exactly when the payload actually
changes some field — so updated_at strictly increases whenever a field
changes and the clock has advanced past the previous value; an update
that changes nothing (empty payload, or all supplied values equal to
the current ones) returns the record unchanged, updated_at included. -/
theorem C7_updated_at_refresh_on_change :
    (∀ (db : List Booking) (i : Nat) (d : BookingUpdate) (now : Nat)
        (b : Booking) (db1 : List Booking) (b1 : Booking),
        BookingRepository.get_by_id db i = some b →
        BookingRepository.update db i d now = some (db1, b1) →
        (BookingRepository.applyUpdate b d ≠ b → b1.updated_at = now) ∧
        (BookingRepository.applyUpdate b d ≠ b → b.updated_at < now →
          b.updated_at < b1.updated_at) ∧
        (BookingRepository.applyUpdate b d = b → b1 = b)) ∧
    (∀ (db : List Provider) (i : Nat) (d : ProviderUpdate) (now : Nat)
        (p : Provider) (db1 : List Provider) (p1 : Provider),
        ProviderRepository.get_by_id db i = some p →
        ProviderRepository.update db i d now = some (db1, p1) →
        (ProviderRepository.applyUpdate p d ≠ p → p1.updated_at = now) ∧
        (ProviderRepository.applyUpdate p d ≠ p → p.updated_at < now →
          p.updated_at < p1.updated_at) ∧
        (ProviderRepository.applyUpdate p d = p → p1 = p)) := by
  constructor
  · intro db i d now b db1 b1 hget hupd
    simp only [BookingRepository.update, BookingRepository.updatedRecord, hget, Option.some.injEq, Prod.mk.injEq] at hupd
    obtain ⟨-, hb⟩ := hupd
    by_cases hch : BookingRepository.applyUpdate b d = b
    · rw [if_pos hch] at hb
      subst hb
      exact ⟨fun hc => absurd hch hc, fun hc _ => absurd hch hc, fun _ => rfl⟩
    · rw [if_neg hch] at hb
      subst hb
      exact ⟨fun _ => rfl, fun _ hlt => hlt, fun hc => absurd hc hch⟩
  · intro db i d now p db1 p1 hget hupd
    simp only [ProviderRepository.update, ProviderRepository.updatedRecord, hget, Option.some.injEq, Prod.mk.injEq] at hupd
    obtain ⟨-, hp⟩ := hupd
    by_cases hch : ProviderRepository.applyUpdate p d = p
    · rw [if_pos hch] at hp
      subst hp
      exact ⟨fun hc => absurd hch hc, fun hc _ => absurd hch hc, fun _ => rfl⟩
    · rw [if_neg hch] at hp
      subst hp
      exact ⟨fun _ => rfl, fun _ hlt => hlt, fun hc => absurd hc hch⟩

/-- C7 witness: the phone updates of the C4 samples really change a
field, the clock (7) is past the old updated_at (3 and 0), and the
refreshed updated_at is 7 on both entities. -/
theorem C7_witness :
    (bookA_phone.updated_at = 7 ∧ bookA.updated_at < bookA_phone.updated_at) ∧
    (provA_phone.updated_at = 7 ∧ provA.updated_at < provA_phone.updated_at) := by
  have hB := C7_updated_at_refresh_on_change.1 [bookA] 1 buPhone 7 bookA
    [bookA_phone] bookA_phone (by decide) (by decide)
  have hP := C7_updated_at_refresh_on_change.2 [provA] 1 puPhone 7 provA
    [provA_phone] provA_phone (by decide) (by decide)
  exact ⟨⟨hB.1 (by decide), hB.2.1 (by decide) (by decide)⟩,
    ⟨hP.1 (by decide), hP.2.1 (by decide) (by decide)⟩⟩

/-! ### C6 -/

/-- The committed row keeps the id of the loaded row. -/
theorem Booking_updatedRecord_id (b : Booking) (d : BookingUpdate) (now : Nat) :
    (BookingRepository.updatedRecord b d now).id = b.id := by
  simp only [BookingRepository.updatedRecord]
  split <;> rfl

/-- The committed row carries the supplied status when one was supplied. -/
theorem Booking_updatedRecord_status (b : Booking) (d : BookingUpdate) (now : Nat) :
    (BookingRepository.updatedRecord b d now).status = d.status.getD b.status := by
  simp only [BookingRepository.updatedRecord]
  split
  next h =>
    have hc := congrArg Booking.status h
    simpa [BookingRepository.applyUpdate] using hc.symm
  next h => rfl

/-- Core of the cancel payload at the repository: a successful update
that forces status cancelled yields a cancelled record that is again
the first record found under its id in the new store. -/
theorem cancel_update_core (db : List Booking) (i now : Nat)
    (db1 : List Booking) (b : Booking)
    (h : BookingRepository.update db i
      ({ status := some BookingStatus.cancelled } : BookingUpdate) now = some (db1, b)) :
    b.status = BookingStatus.cancelled ∧
    BookingRepository.get_by_id db1 i = some b := by
  cases hget : BookingRepository.get_by_id db i with
  | none => simp [BookingRepository.update, hget] at h
  | some b0 =>
    have hget' : db.find? (fun x => x.id == i) = some b0 := hget
    have hpred0 : (b0.id == i) = true := by simpa using List.find?_some hget'
    have hsome : (db.find? (fun x => x.id == i)).isSome = true := by
      rw [hget']; rfl
    simp only [BookingRepository.update, hget, Option.some.injEq, Prod.mk.injEq] at h
    obtain ⟨hdb, hb⟩ := h
    constructor
    · rw [← hb, Booking_updatedRecord_status]
      rfl
    · show db1.find? (fun x => x.id == i) = some b
      rw [← hdb, ← hb]
      apply find?_updateFirst_self (fun x => x.id == i) _ ?_ db hsome
      simp only [Booking_updatedRecord_id]
      exact hpred0

/-- A record already cancelled absorbs the cancel payload: the update
changes nothing, so the store and the record are returned as they are. -/
theorem cancel_update_idem_step (db1 : List Booking) (i now2 : Nat) (b : Booking)
    (hget : BookingRepository.get_by_id db1 i = some b)
    (hst : b.status = BookingStatus.cancelled) :
    BookingRepository.update db1 i
      ({ status := some BookingStatus.cancelled } : BookingUpdate) now2 = some (db1, b) := by
  have hch : BookingRepository.applyUpdate b
      ({ status := some BookingStatus.cancelled } : BookingUpdate) = b := by
    cases b
    simp_all [BookingRepository.applyUpdate]
  have hrec : BookingRepository.updatedRecord b
      ({ status := some BookingStatus.cancelled } : BookingUpdate) now2 = b := by
    unfold BookingRepository.updatedRecord
    rw [if_pos hch]
  simp only [BookingRepository.update, hget, hrec, Option.some.injEq, Prod.mk.injEq]
  exact ⟨updateFirst_of_find?_self _ db1 b hget, trivial⟩

/-- C6: cancel_booking is literally the generic partial update with the
status-only payload forcing cancelled (so it inherits the update path,
its updated_at refresh on change and its not-found error); a successful
cancel yields a cancelled record; cancelling again returns the very
same store and record (idempotent in effect); a missing id gives the
not-found error with the store unchanged; and any found booking can be
cancelled whatever its current status — completed included, there is no
guard. -/
theorem C6_cancel_booking_contract :
    (∀ (db : List Booking) (i now : Nat),
        BookingService.cancel_booking db i now =
          BookingService.update_booking db i
            ({ status := some BookingStatus.cancelled } : BookingUpdate) now) ∧
    (∀ (db db1 : List Booking) (i now : Nat) (b : Booking),
        BookingService.cancel_booking db i now = (db1, Except.ok b) →
        b.status = BookingStatus.cancelled) ∧
    (∀ (db db1 : List Booking) (i now now2 : Nat) (b : Booking),
        BookingService.cancel_booking db i now = (db1, Except.ok b) →
        BookingService.cancel_booking db1 i now2 = (db1, Except.ok b)) ∧
    (∀ (db : List Booking) (i now : Nat),
        BookingRepository.get_by_id db i = none →
        BookingService.cancel_booking db i now =
          (db, Except.error ("Booking with ID " ++ toString i ++ " not found"))) ∧
    (∀ (db : List Booking) (i now : Nat) (b : Booking),
        BookingRepository.get_by_id db i = some b →
        ∃ (db1 : List Booking) (b1 : Booking),
          BookingService.cancel_booking db i now = (db1, Except.ok b1)) := by
  refine ⟨fun db i now => rfl, ?_, ?_, ?_, ?_⟩
  · intro db db1 i now b h
    unfold BookingService.cancel_booking BookingService.update_booking at h
    cases hru : BookingRepository.update db i
        ({ status := some BookingStatus.cancelled } : BookingUpdate) now with
    | none => rw [hru] at h; simp at h
    | some r =>
      rw [hru] at h
      obtain ⟨rdb, rb⟩ := r
      simp only [Prod.mk.injEq, Except.ok.injEq] at h
      obtain ⟨h1, h2⟩ := h
      subst h1; subst h2
      exact (cancel_update_core db i now rdb rb hru).1
  · intro db db1 i now now2 b h
    unfold BookingService.cancel_booking BookingService.update_booking at h ⊢
    cases hru : BookingRepository.update db i
        ({ status := some BookingStatus.cancelled } : BookingUpdate) now with
    | none => rw [hru] at h; simp at h
    | some r =>
      rw [hru] at h
      obtain ⟨rdb, rb⟩ := r
      simp only [Prod.mk.injEq, Except.ok.injEq] at h
      obtain ⟨h1, h2⟩ := h
      rw [h1, h2] at hru
      obtain ⟨hst, hg1⟩ := cancel_update_core db i now db1 b hru
      rw [cancel_update_idem_step db1 i now2 b hg1 hst]
  · intro db i now h
    unfold BookingService.cancel_booking BookingService.update_booking
    simp [BookingRepository.update, h]
  · intro db i now b h
    unfold BookingService.cancel_booking BookingService.update_booking
    cases hru : BookingRepository.update db i
        ({ status := some BookingStatus.cancelled } : BookingUpdate) now with
    | none =>
      exfalso
      simp [BookingRepository.update, h] at hru
    | some r => exact ⟨r.1, r.2, rfl⟩

/-- bookA after a first cancel at instant 9. -/
def bookA_cancelled : Booking :=
  { bookA with status := BookingStatus.cancelled, updated_at := 9 }

/-- A completed booking stored under id 1. -/
def bookA_completed : Booking := { bookA with status := BookingStatus.completed }

/-- C6 witness: a concrete first cancel yields a cancelled record, the
second cancel returns the identical store and record, a missing id
errors, and a completed booking is cancellable. -/
theorem C6_witness :
    bookA_cancelled.status = BookingStatus.cancelled ∧
    BookingService.cancel_booking [bookA_cancelled] 1 11 =
      ([bookA_cancelled], Except.ok bookA_cancelled) ∧
    BookingService.cancel_booking [] 5 9 =
      ([], Except.error ("Booking with ID " ++ toString 5 ++ " not found")) ∧
    ∃ (db1 : List Booking) (b1 : Booking),
      BookingService.cancel_booking [bookA_completed] 1 9 = (db1, Except.ok b1) := by
  refine ⟨?_, ?_, ?_, ?_⟩
  · exact C6_cancel_booking_contract.2.1 [bookA] [bookA_cancelled] 1 9 bookA_cancelled rfl
  · exact C6_cancel_booking_contract.2.2.1 [bookA] [bookA_cancelled] 1 9 11 bookA_cancelled rfl
  · exact C6_cancel_booking_contract.2.2.2.1 [] 5 9 rfl
  · exact C6_cancel_booking_contract.2.2.2.2 [bookA_completed] 1 9 bookA_completed
      (by decide)

/-! ### C1 -/

/-- A creation payload whose scheduled_at equals the evaluation instant 5. -/
def bcBoundaryEq : BookingCreate :=
  { provider_id := 1, client_name := "Eve Adams",
    client_phone := "+555", scheduled_at := 5 }

/-- The row created from bcBoundaryEq with id 4 at instant 5. -/
def bookBoundaryEq : Booking := (BookingRepository.create [] 4 5 bcBoundaryEq).2

/-- C1 counterexample: with the referenced provider existing and
active and scheduled_at equal to the current instant (5 ≤ 5), the
claim demands a rule-violation failure with nothing persisted; the
code checks only `scheduled_at < utcnow()`, so this call succeeds and
persists the booking. -/
theorem C1_counterexample :
    BookingService.create_booking [provA] [] 4 5 bcBoundaryEq =
      ([bookBoundaryEq], Except.ok bookBoundaryEq) ∧
    bcBoundaryEq.scheduled_at = 5 ∧
    ProviderRepository.get_by_id [provA] bcBoundaryEq.provider_id = some provA ∧
    provA.is_active = true := by
  refine ⟨rfl, rfl, rfl, rfl⟩

/-- C1 amended: with the referenced provider existing and active,
creation fails with the "must be in the future" rule violation and
persists nothing exactly when scheduled_at is strictly less than the
current instant, and succeeds (persisting the booking) whenever
scheduled_at is greater than or equal to the current instant. -/
theorem C1_scheduling_rule :
    ∀ (providers : List Provider) (bookings : List Booking) (newId now : Nat)
      (data : BookingCreate) (p : Provider),
      ProviderRepository.get_by_id providers data.provider_id = some p →
      p.is_active = true →
      ((data.scheduled_at < now →
          BookingService.create_booking providers bookings newId now data =
            (bookings, Except.error "Scheduled time must be in the future")) ∧
       (now ≤ data.scheduled_at →
          BookingService.create_booking providers bookings newId now data =
            ((BookingRepository.create bookings newId now data).1,
              Except.ok (BookingRepository.create bookings newId now data).2))) := by
  intro providers bookings newId now data p hget hact
  constructor
  · intro hlt
    simp [BookingService.create_booking, hget, hact, hlt]
  · intro hge
    simp [BookingService.create_booking, BookingRepository.create, hget, hact,
      Nat.not_lt.mpr hge]

/-- A creation payload whose scheduled_at (2) lies strictly before the
evaluation instant 5. -/
def bcPast : BookingCreate :=
  { provider_id := 1, client_name := "Old Case",
    client_phone := "+111", scheduled_at := 2 }

/-- C1 witness: both branches of the amended rule at concrete inputs —
a strictly past time fails with nothing persisted, the boundary time
(and hence any time ≥ now) succeeds. -/
theorem C1_witness :
    (BookingService.create_booking [provA] [] 4 5 bcPast =
      ([], Except.error "Scheduled time must be in the future")) ∧
    (BookingService.create_booking [provA] [] 4 5 bcBoundaryEq =
      ((BookingRepository.create [] 4 5 bcBoundaryEq).1,
        Except.ok (BookingRepository.create [] 4 5 bcBoundaryEq).2)) :=
  ⟨(C1_scheduling_rule [provA] [] 4 5 bcPast provA rfl rfl).1 (by decide),
   (C1_scheduling_rule [provA] [] 4 5 bcBoundaryEq provA rfl rfl).2 (by decide)⟩

/-! ### C5 -/

/-- A second active provider, stored under id 3. -/
def provB : Provider :=
  { id := 3, name := "Harbor Dental", sector := "dental", phone := none,
    email := none, address := none, is_active := true,
    created_at := 0, updated_at := 0 }

/-- An inactive provider, stored under id 2. -/
def provInactive : Provider :=
  { id := 2, name := "Closed Shop", sector := "retail", phone := none,
    email := none, address := none, is_active := false,
    created_at := 0, updated_at := 0 }

/-- A creation payload against provider 3 whose scheduled_at equals the
evaluation instant 9. -/
def bcBoundaryB : BookingCreate :=
  { provider_id := 3, client_name := "Sam Hill",
    client_phone := "+222", scheduled_at := 9 }

/-- The row created from bcBoundaryB with id 6 at instant 9. -/
def bookBoundaryB : Booking := (BookingRepository.create [] 6 9 bcBoundaryB).2

/-- C5 counterexample: clause (3) of the claim demands a
must-be-in-the-future error whenever scheduled_at is not in the future;
at scheduled_at = now = 9 the instant is not in the future, yet the
code (which tests only `scheduled_at < utcnow()`) persists the
booking. -/
theorem C5_counterexample :
    BookingService.create_booking [provB] [] 6 9 bcBoundaryB =
      ([bookBoundaryB], Except.ok bookBoundaryB) ∧
    bcBoundaryB.scheduled_at = 9 := by
  refine ⟨rfl, rfl⟩

/-- C5 amended: booking creation validates in a fixed order with the
first failure winning — (1) unknown provider gives the not-found error
whatever the other fields; (2) an inactive provider gives the inactive
error even when scheduled_at is also bad; (3) with an existing active
provider, a scheduled_at strictly before now gives the
must-be-in-the-future error; only when all three pass (scheduled_at
not strictly before now) is the booking persisted, and on every
failure the booking store is returned unchanged. -/
theorem C5_create_booking_validation_order :
    ∀ (providers : List Provider) (bookings : List Booking) (newId now : Nat)
      (data : BookingCreate),
      (ProviderRepository.get_by_id providers data.provider_id = none →
        BookingService.create_booking providers bookings newId now data =
          (bookings, Except.error
            ("Provider with ID " ++ toString data.provider_id ++ " not found"))) ∧
      (∀ p, ProviderRepository.get_by_id providers data.provider_id = some p →
        p.is_active = false →
        BookingService.create_booking providers bookings newId now data =
          (bookings, Except.error "Provider is not active and cannot accept bookings")) ∧
      (∀ p, ProviderRepository.get_by_id providers data.provider_id = some p →
        p.is_active = true → data.scheduled_at < now →
        BookingService.create_booking providers bookings newId now data =
          (bookings, Except.error "Scheduled time must be in the future")) ∧
      (∀ p, ProviderRepository.get_by_id providers data.provider_id = some p →
        p.is_active = true → ¬ data.scheduled_at < now →
        BookingService.create_booking providers bookings newId now data =
          ((BookingRepository.create bookings newId now data).1,
            Except.ok (BookingRepository.create bookings newId now data).2)) := by
  intro providers bookings newId now data
  refine ⟨fun h => ?_, fun p h ha => ?_, fun p h ha hs => ?_, fun p h ha hs => ?_⟩
  · simp [BookingService.create_booking, h]
  · simp [BookingService.create_booking, h, ha]
  · simp [BookingService.create_booking, h, ha, hs]
  · simp [BookingService.create_booking, BookingRepository.create, h, ha, hs]

/-- A payload against the inactive provider 2 with a past time: rule 2
must win over rule 3. -/
def bcInactivePast : BookingCreate :=
  { provider_id := 2, client_name := "Kim Lee",
    client_phone := "+333", scheduled_at := 1 }

/-- A payload against an unknown provider 99 with a past time: rule 1
must win. -/
def bcUnknown : BookingCreate :=
  { provider_id := 99, client_name := "No One",
    client_phone := "+000", scheduled_at := 1 }

/-- A payload against provider 3 with a strictly past time (4 < 9). -/
def bcPast3 : BookingCreate :=
  { provider_id := 3, client_name := "Late Kim",
    client_phone := "+777", scheduled_at := 4 }

/-- A valid payload against provider 3 for the success branch. -/
def bcFutureB : BookingCreate :=
  { provider_id := 3, client_name := "Ada Stone",
    client_phone := "+444", scheduled_at := 42 }

/-- C5 witness: the four branches at concrete inputs, exercising the
precedence (unknown beats past time, inactive beats past time). -/
theorem C5_witness :
    (BookingService.create_booking [provB, provInactive] [bookA] 6 9 bcUnknown =
      ([bookA], Except.error ("Provider with ID " ++ toString 99 ++ " not found"))) ∧
    (BookingService.create_booking [provB, provInactive] [bookA] 6 9 bcInactivePast =
      ([bookA], Except.error "Provider is not active and cannot accept bookings")) ∧
    (BookingService.create_booking [provB] [bookA] 6 9 bcPast3 =
      ([bookA], Except.error "Scheduled time must be in the future")) ∧
    (BookingService.create_booking [provB] [] 6 9 bcFutureB =
      ((BookingRepository.create [] 6 9 bcFutureB).1,
        Except.ok (BookingRepository.create [] 6 9 bcFutureB).2)) :=
  ⟨(C5_create_booking_validation_order [provB, provInactive] [bookA] 6 9 bcUnknown).1 rfl,
   (C5_create_booking_validation_order [provB, provInactive] [bookA] 6 9 bcInactivePast).2.1
     provInactive rfl rfl,
   (C5_create_booking_validation_order [provB] [bookA] 6 9 bcPast3).2.2.1
     provB rfl rfl (by decide),
   (C5_create_booking_validation_order [provB] [] 6 9 bcFutureB).2.2.2
     provB rfl rfl (by decide)⟩

/-! ### C10 -/

/-- The committed provider row carries the supplied name when one was
supplied. -/
theorem Provider_updatedRecord_name (p : Provider) (d : ProviderUpdate) (now : Nat) :
    (ProviderRepository.updatedRecord p d now).name = d.name.getD p.name := by
  simp only [ProviderRepository.updatedRecord]
  split
  next h =>
    have hc := congrArg Provider.name h
    simpa [ProviderRepository.applyUpdate] using hc.symm
  next h => rfl

/-- The committed provider row carries the supplied sector when one was
supplied. -/
theorem Provider_updatedRecord_sector (p : Provider) (d : ProviderUpdate) (now : Nat) :
    (ProviderRepository.updatedRecord p d now).sector = d.sector.getD p.sector := by
  simp only [ProviderRepository.updatedRecord]
  split
  next h =>
    have hc := congrArg Provider.sector h
    simpa [ProviderRepository.applyUpdate] using hc.symm
  next h => rfl

/-- A schema-valid partial update supplying a whitespace-only name of
length 1. -/
def puBlankName : ProviderUpdate := { name := some " " }

/-- provA after puBlankName is applied at instant 9. -/
def provA_blank : Provider := { provA with name := " ", updated_at := 9 }

/-- C10 counterexample: the payload supplying the single-space name
passes the ProviderUpdate schema (min_length 1), the service-layer
update applies it without any trimmed-content check, and the provider
reachable afterwards has a whitespace-only name — the registration-time
invariant is not preserved by partial update. -/
theorem C10_counterexample :
    ProviderUpdate.valid puBlankName = true ∧
    ProviderService.update_provider [provA] 1 puBlankName 9 =
      ([provA_blank], Except.ok provA_blank) ∧
    strippedEmpty provA_blank.name = true ∧
    strippedEmpty provA.name = false := by
  refine ⟨by decide, rfl, by decide, by decide⟩

/-- C10 amended: registration does establish the non-blank invariant
for name and sector, and a partial update preserves it provided every
supplied name or sector is itself non-blank; the update path alone
enforces no trimmed-content check, so the invariant can be broken by a
schema-valid whitespace-only value (the counterexample). -/
theorem C10_provider_nonblank_invariant :
    (∀ (db : List Provider) (newId now : Nat) (data : ProviderCreate)
        (db1 : List Provider) (p : Provider),
        ProviderService.register_provider db newId now data = (db1, Except.ok p) →
        strippedEmpty p.name = false ∧ strippedEmpty p.sector = false) ∧
    (∀ (db : List Provider) (i : Nat) (d : ProviderUpdate) (now : Nat)
        (p : Provider) (db1 : List Provider) (p1 : Provider),
        ProviderRepository.get_by_id db i = some p →
        strippedEmpty p.name = false → strippedEmpty p.sector = false →
        (∀ s, d.name = some s → strippedEmpty s = false) →
        (∀ s, d.sector = some s → strippedEmpty s = false) →
        ProviderService.update_provider db i d now = (db1, Except.ok p1) →
        strippedEmpty p1.name = false ∧ strippedEmpty p1.sector = false) := by
  constructor
  · intro db newId now data db1 p h
    by_cases hn : strippedEmpty data.name
    · simp [ProviderService.register_provider, hn] at h
    · by_cases hs : strippedEmpty data.sector
      · simp [ProviderService.register_provider, hn, hs] at h
      · simp only [ProviderService.register_provider, Bool.not_eq_true] at hn hs
        simp only [ProviderService.register_provider, hn, hs, Bool.false_eq_true,
          if_false, ProviderRepository.create, Prod.mk.injEq, Except.ok.injEq] at h
        obtain ⟨-, hp⟩ := h
        rw [← hp]
        exact ⟨hn, hs⟩
  · intro db i d now p db1 p1 hget hn hs hdn hds h
    unfold ProviderService.update_provider at h
    simp only [ProviderRepository.update, hget] at h
    simp only [Prod.mk.injEq, Except.ok.injEq] at h
    obtain ⟨-, hp1⟩ := h
    rw [← hp1]
    constructor
    · rw [Provider_updatedRecord_name]
      cases hdname : d.name with
      | none => simpa using hn
      | some s => simpa using hdn s hdname
    · rw [Provider_updatedRecord_sector]
      cases hdsector : d.sector with
      | none => simpa using hs
      | some s => simpa using hds s hdsector

/-- A registration input with non-blank name and sector. -/
def pcA : ProviderCreate := { name := "City Clinic", sector := "medical" }

/-- The provider created from pcA with id 1 at instant 0. -/
def provReg : Provider := (ProviderRepository.create [] 1 0 pcA).2

/-- A partial update supplying a non-blank name. -/
def puNewName : ProviderUpdate := { name := some "New Clinic" }

/-- provA after puNewName is applied at instant 9. -/
def provA_newName : Provider := { provA with name := "New Clinic", updated_at := 9 }

/-- C10 witness: a concrete registration establishes the invariant and
a concrete non-blank update preserves it. -/
theorem C10_witness :
    (strippedEmpty provReg.name = false ∧ strippedEmpty provReg.sector = false) ∧
    (strippedEmpty provA_newName.name = false ∧
      strippedEmpty provA_newName.sector = false) :=
  ⟨C10_provider_nonblank_invariant.1 [] 1 0 pcA [provReg] provReg rfl,
   C10_provider_nonblank_invariant.2 [provA] 1 puNewName 9 provA
     [provA_newName] provA_newName rfl (by decide) (by decide)
     (fun s hs => by
       injection hs with h
       rw [← h]
       decide)
     (fun s hs => by simp [puNewName] at hs)
     rfl⟩

/-! ### C3 -/

/-- As long as no filter value falls on the Python-falsy provider_id 0,
the chained truthiness-guarded filters compute exactly the
specification predicate bookingMatches. -/
theorem filteredQuery_eq_filter (db : List Booking) (pid : Option Nat)
    (st : Option BookingStatus) (fd td : Option Nat)
    (h : ∀ n, pid = some n → n ≠ 0) :
    BookingRepository.filteredQuery db pid st fd td =
      db.filter (bookingMatches pid st fd td) := by
  rcases pid with _ | n
  · rcases st with _ | v <;> rcases fd with _ | f <;> rcases td with _ | t <;>
      simp only [BookingRepository.filteredQuery, List.filter_filter] <;>
      (first
        | (symm
           rw [List.filter_eq_self]
           intro b hb
           simp [bookingMatches])
        | (apply List.filter_congr
           intro b hb
           simp [bookingMatches, Bool.and_comm, Bool.and_left_comm, Bool.and_assoc]))
  · have hn : (n != 0) = true := by simpa using h n rfl
    rcases st with _ | v <;> rcases fd with _ | f <;> rcases td with _ | t <;>
      simp only [BookingRepository.filteredQuery, hn, if_true, List.filter_filter] <;>
      (apply List.filter_congr
       intro b hb
       simp [bookingMatches, Bool.and_comm, Bool.and_left_comm, Bool.and_assoc])

/-- C3 counterexample: with the filter provider_id = 0 supplied, the
claim demands exactly the bookings whose provider_id is 0 (here none);
the source's `if provider_id:` treats 0 as falsy and skips the filter,
so the call returns the stored booking that does not match. -/
theorem C3_counterexample :
    BookingRepository.list_all [bookA] 0 100 (some 0) none none none = [bookA] ∧
    bookingMatches (some 0) none none none bookA = false := by
  constructor
  · simp [BookingRepository.list_all, BookingRepository.filteredQuery]
  · rfl

/-- C3 amended: provided every supplied provider_id is nonzero (0 is
Python-falsy and silently disables that filter), list_all with skip 0
and limit at least the store size returns exactly the bookings
satisfying the conjunction of the supplied filters (as a permutation,
and pointwise as membership); every result — any skip and limit — is
ordered ascending by scheduled_at; and skip/limit pagination is
applied after ordering, i.e. the general call is drop-then-take of the
full ordered result. -/
theorem C3_list_all_filter_sort_paginate :
    ∀ (db : List Booking) (skip limit : Nat) (pid : Option Nat)
      (st : Option BookingStatus) (fd td : Option Nat),
      (∀ n, pid = some n → n ≠ 0) →
      ((BookingRepository.list_all db 0 db.length pid st fd td).Perm
          (db.filter (bookingMatches pid st fd td)) ∧
       (∀ b, b ∈ BookingRepository.list_all db 0 db.length pid st fd td ↔
          (b ∈ db ∧ bookingMatches pid st fd td b = true)) ∧
       (BookingRepository.list_all db skip limit pid st fd td).Pairwise
          (fun a b => a.scheduled_at ≤ b.scheduled_at) ∧
       BookingRepository.list_all db skip limit pid st fd td =
         ((BookingRepository.list_all db 0 db.length pid st fd td).drop skip).take limit) := by
  intro db skip limit pid st fd td hpid
  have hq := filteredQuery_eq_filter db pid st fd td hpid
  have hfull : BookingRepository.list_all db 0 db.length pid st fd td =
      (BookingRepository.filteredQuery db pid st fd td).mergeSort
        (fun (a b : Booking) => a.scheduled_at ≤ b.scheduled_at) := by
    unfold BookingRepository.list_all
    rw [List.drop_zero]
    apply List.take_of_length_le
    rw [(List.mergeSort_perm _ _).length_eq, hq]
    exact List.length_filter_le _ _
  have hperm : (BookingRepository.list_all db 0 db.length pid st fd td).Perm
      (db.filter (bookingMatches pid st fd td)) := by
    rw [hfull, hq]
    exact List.mergeSort_perm _ _
  have hsorted0 := @List.sorted_mergeSort Booking
    (fun (a b : Booking) => a.scheduled_at ≤ b.scheduled_at)
    (fun a b c hab hbc => by
      simp only [decide_eq_true_eq] at hab hbc ⊢
      omega)
    (fun a b => by
      simpa using Nat.le_total a.scheduled_at b.scheduled_at)
    (BookingRepository.filteredQuery db pid st fd td)
  have hsortedX : ((BookingRepository.filteredQuery db pid st fd td).mergeSort
      (fun (a b : Booking) => a.scheduled_at ≤ b.scheduled_at)).Pairwise
      (fun a b => a.scheduled_at ≤ b.scheduled_at) :=
    hsorted0.imp (fun hab => by simpa using hab)
  refine ⟨hperm, ?_, ?_, ?_⟩
  · intro b
    rw [hperm.mem_iff, List.mem_filter]
  · unfold BookingRepository.list_all
    exact List.Pairwise.sublist
      ((List.take_sublist _ _).trans (List.drop_sublist _ _)) hsortedX
  · conv_rhs => rw [hfull]
    rfl

/-- A second stored booking (provider 3, confirmed, later time). -/
def bookB : Booking :=
  { id := 2, provider_id := 3, client_name := "Sam Hill",
    client_phone := "+222", client_email := none,
    service_type := none, scheduled_at := 200,
    status := BookingStatus.confirmed, notes := none,
    created_at := 4, updated_at := 4 }

/-- C3 witness: the amended statement applied to a concrete two-booking
store with all three filters supplied (nonzero provider_id 1, status
pending, window [50, 150]). -/
theorem C3_witness :
    ((BookingRepository.list_all [bookA, bookB] 0 2 (some 1)
        (some BookingStatus.pending) (some 50) (some 150)).Perm
      ([bookA, bookB].filter (bookingMatches (some 1)
        (some BookingStatus.pending) (some 50) (some 150)))) ∧
    (bookA ∈ BookingRepository.list_all [bookA, bookB] 0 2 (some 1)
        (some BookingStatus.pending) (some 50) (some 150) ↔
      (bookA ∈ [bookA, bookB] ∧ bookingMatches (some 1)
        (some BookingStatus.pending) (some 50) (some 150) bookA = true)) ∧
    ((BookingRepository.list_all [bookA, bookB] 1 5 (some 1)
        (some BookingStatus.pending) (some 50) (some 150)).Pairwise
      (fun a b => a.scheduled_at ≤ b.scheduled_at)) ∧
    (BookingRepository.list_all [bookA, bookB] 1 5 (some 1)
        (some BookingStatus.pending) (some 50) (some 150) =
      ((BookingRepository.list_all [bookA, bookB] 0 2 (some 1)
        (some BookingStatus.pending) (some 50) (some 150)).drop 1).take 5) := by
  have H := C3_list_all_filter_sort_paginate [bookA, bookB] 1 5 (some 1)
    (some BookingStatus.pending) (some 50) (some 150)
    (fun n hn => by
      injection hn with h
      omega)
  exact ⟨H.1, H.2.1 bookA, H.2.2.1, H.2.2.2⟩

end ZentrikApi
